import Mathlib

/-!
# Verification of the multi-stage compressor performance calculator

Shallow embedding of the function `perform_performance_calculation`
(src/app.py, lines 307-444) over exact real arithmetic, together with the
auxiliary `clamp` helper (src/app.py, lines 18-19).  Python float
arithmetic is modelled by the real numbers; the float exponentiation
operator on a real exponent is `Real.rpow`, and the integer stage-index
exponent of line 367 is `Monoid.npow`.  The unit-normalisation prologue
(lines 330-343) converts either unit system to the same normalised state
(`P_in_pa`, `T_in_K`, `n`); the embedding starts from that normalised
state, which is where every claim under scrutiny begins.
-/

noncomputable section

namespace Demag

/-- Python helper of src/app.py lines 18-19: `clamp(n, a, b) = max(a, min(n, b))`. -/
def clamp (n a b : ℝ) : ℝ := max a (min n b)

/-- One throw descriptor, as consumed from the `throws` list at
src/app.py lines 360-361 and 373-376: a `throw_id` key, geometry fields
(carried but unused by the formulas), and the three efficiency
percentages. -/
structure Throw where
  throw_id : Int
  bore_m : ℝ
  clearance_m : ℝ
  VVCP : ℝ
  SACE : ℝ
  SAHE : ℝ

/-- The normalised parameter record read at src/app.py lines 325-346:
mass flow, inlet state in SI units, stage count, total pressure ratio,
rpm, the stage-to-throw assignment dictionary (accessed only through
`stage_mapping.get`, hence a function to `Option`), and the throw list. -/
structure Params where
  mass_flow_kg_s : ℝ
  inlet_pressure_pa : ℝ
  inlet_temperature_K : ℝ
  n_stages : Int
  PR_total : ℝ
  rpm : ℝ
  stage_mapping : Int → Option Int
  throws : List Throw

/-- One entry of `stage_details`, appended at src/app.py lines 400-410. -/
structure StageDetail where
  stage : Int
  P_in_bar : ℝ
  P_out_bar : ℝ
  PR : ℝ
  T_in_C : ℝ
  T_out_C : ℝ
  poly_eff : ℝ
  isentropic_eff : ℝ
  shaft_power_kW : ℝ

/-- One entry of the `stages` list of the Ariel7-compatible mirror,
built at src/app.py lines 427-439 by renaming the fields of a
`stage_details` entry. -/
structure ArielStage where
  stage_number : Int
  P_in_bar : ℝ
  P_out_bar : ℝ
  PR : ℝ
  T_in_C : ℝ
  T_out_C : ℝ
  polytropic_efficiency : ℝ
  isentropic_efficiency : ℝ
  shaft_power_kW : ℝ

/-- The output record of src/app.py lines 417-442. -/
structure Outputs where
  frame_rpm : ℝ
  mass_flow_kg_s : ℝ
  inlet_pressure_bar : ℝ
  inlet_temperature_C : ℝ
  n_stages : Int
  total_shaft_power_kW : ℝ
  stage_details : List StageDetail
  ariel_stages : List ArielStage
  ariel_total_shaft_power_kW : ℝ

/-- Fixed heat-capacity ratio, src/app.py line 352. -/
def gamma : ℝ := 1.30

/-- Fixed specific heat, src/app.py line 353. -/
def cp_kJ_per_kgK : ℝ := 2.0

/-- Clamp-on-entry of the stage count, src/app.py lines 347-348
(`if n <= 0: n = 1`). -/
def nStagesClamped (p : Params) : Int :=
  if p.n_stages ≤ 0 then 1 else p.n_stages

/-- The clamped stage count as a natural number (the loop trip count of
line 365). -/
def nNat (p : Params) : Nat := (nStagesClamped p).toNat

/-- Uniform per-stage pressure ratio, src/app.py line 349:
`PR_base = PR_total ** (1.0 / n)` (real exponentiation). -/
def PR_base (p : Params) : ℝ :=
  p.PR_total ^ ((1 : ℝ) / (nStagesClamped p : ℝ))

/-- The `throws_by_id` dictionary built at src/app.py lines 359-361; a
later list entry with the same `throw_id` overwrites an earlier one,
exactly as repeated dict insertion does. -/
def throwsById (throws : List Throw) : Int → Option Throw :=
  throws.foldl (fun acc t => fun k => if k = t.throw_id then some t else acc k)
    (fun _ => none)

/-- Resolution of the throw used by stage `i`: `stage_mapping.get(i)`
followed by the `throw_id in throws_by_id` membership test, src/app.py
lines 371-373. -/
def resolvedThrow (p : Params) (i : Int) : Option Throw :=
  match p.stage_mapping i with
  | none => none
  | some tid => throwsById p.throws tid

/-- The `SACE` percentage used by stage `i` (src/app.py lines 374 and 378):
the resolved throw's value, or `0` when no throw resolves. -/
def stage_SACE (p : Params) (i : Int) : ℝ :=
  match resolvedThrow p i with
  | some th => th.SACE
  | none => 0

/-- The `VVCP` percentage used by stage `i` (src/app.py lines 375 and 379). -/
def stage_VVCP (p : Params) (i : Int) : ℝ :=
  match resolvedThrow p i with
  | some th => th.VVCP
  | none => 0

/-- The `SAHE` percentage used by stage `i` (src/app.py lines 376 and 380). -/
def stage_SAHE (p : Params) (i : Int) : ℝ :=
  match resolvedThrow p i with
  | some th => th.SAHE
  | none => 0

/-- Isentropic efficiency of stage `i`, src/app.py lines 383-384. -/
def eta_isent (p : Params) (i : Int) : ℝ :=
  clamp (0.65 + 0.15 * (stage_SACE p i / 100) - 0.05 * (stage_VVCP p i / 100)
      + 0.10 * (stage_SAHE p i / 100)) 0.65 0.92

/-- Polytropic efficiency of stage `i`, src/app.py lines 387-388
(computed and recorded, never read back by the power computation). -/
def eta_poly (p : Params) (i : Int) : ℝ :=
  clamp (0.75 + (stage_SACE p i / 100) * 0.08 - (stage_VVCP p i / 100) * 0.02
      + (stage_SAHE p i / 100) * 0.03) 0.60 0.95

/-- Isentropic outlet temperature, src/app.py line 392:
`T_out_isentropic_K = T * PR_base ** ((gamma - 1)/gamma)`. -/
def T_out_isentropic (p : Params) (T : ℝ) : ℝ :=
  T * PR_base p ^ ((gamma - 1) / gamma)

/-- Actual outlet temperature of stage `i`, src/app.py line 393:
`T_out_actual_K = T + (T_isent - T) / max(eta, 1e-6)`. -/
def T_out_actual (p : Params) (i : Int) (T : ℝ) : ℝ :=
  T + (T_out_isentropic p T - T) / max (eta_isent p i) 1e-6

/-- Running inlet temperature: `TinStage p k` is the value the loop
variable `T_in_K` holds when the stage of zero-based index `k` begins
(src/app.py line 414 carries each actual outlet forward unchanged). -/
def TinStage (p : Params) : Nat → ℝ
  | 0 => p.inlet_temperature_K
  | k + 1 => T_out_actual p ((k : Int) + 1) (TinStage p k)

/-- Inlet pressure in bar, src/app.py line 364: `P_in_bar = P_in_pa / 1e5`. -/
def P_in_bar0 (p : Params) : ℝ := p.inlet_pressure_pa / 1e5

/-- The body of one loop iteration (src/app.py lines 365-410): the stage
record built for zero-based index `k` (stage number `k + 1`) with running
inlet temperature `T`. -/
def mkStage (p : Params) (k : Nat) (T : ℝ) : StageDetail :=
  { stage := (k : Int) + 1
    P_in_bar := P_in_bar0 p * PR_base p ^ k
    P_out_bar := P_in_bar0 p * PR_base p ^ k * PR_base p
    PR := PR_base p
    T_in_C := T - 273.15
    T_out_C := T_out_actual p ((k : Int) + 1) T - 273.15
    poly_eff := eta_poly p ((k : Int) + 1)
    isentropic_eff := eta_isent p ((k : Int) + 1)
    shaft_power_kW := p.mass_flow_kg_s * cp_kJ_per_kgK
      * (T_out_actual p ((k : Int) + 1) T - T) / 1000 }

/-- The stage loop of src/app.py lines 365-414: `m` remaining iterations,
`k` the zero-based index of the next stage, `T` the running inlet
temperature, `acc` the running power total.  Returns the produced stage
list, the final running temperature and the final power total. -/
def loopGo (p : Params) : Nat → Nat → ℝ → ℝ → List StageDetail × ℝ × ℝ
  | 0, _, T, acc => ([], T, acc)
  | m + 1, k, T, acc =>
    let sd := mkStage p k T
    let rest := loopGo p m (k + 1) (T_out_actual p ((k : Int) + 1) T)
      (acc + sd.shaft_power_kW)
    (sd :: rest.1, rest.2)

/-- Python `perform_performance_calculation` (src/app.py lines 307-444)
from the normalised parameter state.  Note that line 421 reads the
mutated `T_in_K`, i.e. the final running temperature after the loop. -/
def perform_performance_calculation (p : Params) : Outputs :=
  let res := loopGo p (nNat p) 0 p.inlet_temperature_K 0
  { frame_rpm := p.rpm
    mass_flow_kg_s := p.mass_flow_kg_s
    inlet_pressure_bar := P_in_bar0 p
    inlet_temperature_C := res.2.1 - 273.15
    n_stages := nStagesClamped p
    total_shaft_power_kW := res.2.2
    stage_details := res.1
    ariel_stages := res.1.map (fun s =>
      { stage_number := s.stage
        P_in_bar := s.P_in_bar
        P_out_bar := s.P_out_bar
        PR := s.PR
        T_in_C := s.T_in_C
        T_out_C := s.T_out_C
        polytropic_efficiency := s.poly_eff
        isentropic_efficiency := s.isentropic_eff
        shaft_power_kW := s.shaft_power_kW })
    ariel_total_shaft_power_kW := res.2.2 }

/-- The stage record of zero-based index `k`, in closed form: `mkStage`
fed with the running inlet temperature `TinStage p k`. -/
def stageAt (p : Params) (k : Nat) : StageDetail :=
  mkStage p k (TinStage p k)

/-- The throws a stage resolves to through the assignment map: the
mapped `throw_id` looked up in `throws_by_id` (src/app.py lines 371-373),
as a list.  By construction of the mapping dictionary a stage resolves to
at most one throw. -/
def assignedThrows (p : Params) (i : Int) : List Throw :=
  match resolvedThrow p i with
  | some th => [th]
  | none => []

/-- Arithmetic mean of a list of reals, `0` when the list is empty.
Modelled from the spec's words for the throw-combination policy
("combined by arithmetic mean"; "if none assigned, all three are 0"). -/
def meanOrZero (l : List ℝ) : ℝ :=
  if l.length = 0 then 0 else l.sum / (l.length : ℝ)

lemma one_le_nStagesClamped (p : Params) : 1 ≤ nStagesClamped p := by
  unfold nStagesClamped; split <;> omega

lemma one_le_nNat (p : Params) : 1 ≤ nNat p := by
  have := one_le_nStagesClamped p
  unfold nNat
  omega

lemma TinStage_succ (p : Params) (k : Nat) :
    TinStage p (k + 1) = T_out_actual p ((k : Int) + 1) (TinStage p k) := rfl

lemma le_clamp (n a b : ℝ) : a ≤ clamp n a b := le_max_left a _

lemma clamp_le_right (n a b : ℝ) (h : a ≤ b) : clamp n a b ≤ b :=
  max_le h (min_le_right n b)

lemma loopGo_fst (p : Params) :
    ∀ (m k : Nat) (acc : ℝ),
      (loopGo p m k (TinStage p k) acc).1
        = (List.range m).map (fun j => stageAt p (k + j)) := by
  intro m
  induction m with
  | zero => intro k acc; simp [loopGo]
  | succ m ih =>
    intro k acc
    simp only [loopGo]
    rw [show T_out_actual p ((k : Int) + 1) (TinStage p k) = TinStage p (k + 1) from rfl]
    rw [ih (k + 1)]
    rw [List.range_succ_eq_map]
    simp only [List.map_cons, List.map_map]
    rw [List.cons_eq_cons]
    refine ⟨rfl, ?_⟩
    · apply List.map_congr_left
      intro j _
      simp only [Function.comp_apply]
      congr 1
      omega

lemma loopGo_total (p : Params) :
    ∀ (m k : Nat) (T acc : ℝ),
      (loopGo p m k T acc).2.2
        = acc + ((loopGo p m k T acc).1.map StageDetail.shaft_power_kW).sum := by
  intro m
  induction m with
  | zero => intro k T acc; simp [loopGo]
  | succ m ih =>
    intro k T acc
    simp only [loopGo]
    rw [ih]
    simp only [List.map_cons, List.sum_cons]
    ring

lemma perform_details (p : Params) :
    (perform_performance_calculation p).stage_details
      = (List.range (nNat p)).map (stageAt p) := by
  have h := loopGo_fst p (nNat p) 0 0
  simpa [perform_performance_calculation] using h

lemma perform_length (p : Params) :
    (perform_performance_calculation p).stage_details.length = nNat p := by
  rw [perform_details]; simp

lemma perform_get (p : Params) (k : Nat)
    (hk : k < (perform_performance_calculation p).stage_details.length) :
    (perform_performance_calculation p).stage_details.get ⟨k, hk⟩ = stageAt p k := by
  have hd := perform_details p
  have hk' : k < nNat p := by
    rw [← perform_length p]; exact hk
  simp [List.get_eq_getElem, hd]

lemma perform_total (p : Params) :
    (perform_performance_calculation p).total_shaft_power_kW
      = ((perform_performance_calculation p).stage_details.map
          StageDetail.shaft_power_kW).sum := by
  have h := loopGo_total p (nNat p) 0 p.inlet_temperature_K 0
  simpa [perform_performance_calculation] using h

lemma PR_base_pos (p : Params) (h : 0 < p.PR_total) : 0 < PR_base p :=
  Real.rpow_pos_of_pos h _

lemma nNat_cast_eq (p : Params) :
    ((nNat p : ℝ)) = ((nStagesClamped p : Int) : ℝ) := by
  have h1 := one_le_nStagesClamped p
  have h2 : ((nNat p : Nat) : Int) = nStagesClamped p :=
    Int.toNat_of_nonneg (by omega)
  rw [← h2]
  push_cast
  ring

lemma PR_base_pow (p : Params) (h : 0 < p.PR_total) :
    PR_base p ^ (nNat p) = p.PR_total := by
  have h1 := one_le_nStagesClamped p
  have hne : ((nStagesClamped p : Int) : ℝ) ≠ 0 :=
    Int.cast_ne_zero.mpr (by omega)
  rw [PR_base,
    ← Real.rpow_natCast (p.PR_total ^ ((1 : ℝ) / (nStagesClamped p : ℝ))) (nNat p),
    ← Real.rpow_mul h.le, nNat_cast_eq p, one_div, inv_mul_cancel₀ hne,
    Real.rpow_one]

/-- Claim C1: for every invocation of the performance calculation and
every stage (stages processed in ascending order with the running inlet
temperature `TinStage`), the stage's isentropic outlet temperature is
`T * PR_stage ^ ((gamma - 1)/gamma)` with `gamma` fixed at `1.30`, the
actual outlet temperature is `T + (T_isent - T) / max(eta, 1e-6)`, and
the stage shaft power is `mass_flow * cp * (T_actual - T) / 1000` with
`cp` fixed at `2.0`. -/
theorem stage_temperature_power_formulas (p : Params) (k : Nat)
    (hk : k < (perform_performance_calculation p).stage_details.length) :
    ((perform_performance_calculation p).stage_details.get ⟨k, hk⟩).T_in_C
        = TinStage p k - 273.15 ∧
    ((perform_performance_calculation p).stage_details.get ⟨k, hk⟩).T_out_C + 273.15
        = TinStage p k
          + (TinStage p k * PR_base p ^ ((1.30 - 1) / 1.30 : ℝ) - TinStage p k)
            / max (eta_isent p ((k : Int) + 1)) 1e-6 ∧
    ((perform_performance_calculation p).stage_details.get ⟨k, hk⟩).shaft_power_kW
        = p.mass_flow_kg_s * 2.0
          * (((perform_performance_calculation p).stage_details.get ⟨k, hk⟩).T_out_C
              + 273.15 - TinStage p k) / 1000 := by
  rw [perform_get]
  refine ⟨rfl, ?_, ?_⟩
  · show T_out_actual p ((k : Int) + 1) (TinStage p k) - 273.15 + 273.15 = _
    rw [T_out_actual, T_out_isentropic, gamma]
    ring
  · rw [show (stageAt p k).T_out_C
          = T_out_actual p ((k : Int) + 1) (TinStage p k) - 273.15 from rfl,
      show (stageAt p k).shaft_power_kW
          = p.mass_flow_kg_s * cp_kJ_per_kgK
            * (T_out_actual p ((k : Int) + 1) (TinStage p k) - TinStage p k) / 1000
        from rfl,
      cp_kJ_per_kgK]
    ring

/-- Claim C2: the per-stage pressure ratio is uniform and equal to
`PR_total ^ (1 / n_stages)`; stage inlet pressure is the process inlet
pressure times `PR_stage ^ (s - 1)` (zero-based exponent `k`), stage
outlet pressure is the stage inlet pressure times `PR_stage`, and the
per-stage ratio recomputed as `outlet / inlet`, raised to the number of
stages, recovers `PR_total`; the pressure fields are a closed form in the
stage index alone, so they do not depend on the running temperature. -/
theorem stage_pressures_geometric (p : Params) (k : Nat)
    (hk : k < (perform_performance_calculation p).stage_details.length) :
    ((perform_performance_calculation p).stage_details.get ⟨k, hk⟩).P_in_bar
        = p.inlet_pressure_pa / 1e5 * PR_base p ^ k ∧
    ((perform_performance_calculation p).stage_details.get ⟨k, hk⟩).P_out_bar
        = ((perform_performance_calculation p).stage_details.get ⟨k, hk⟩).P_in_bar
          * PR_base p ∧
    ((perform_performance_calculation p).stage_details.get ⟨k, hk⟩).PR = PR_base p ∧
    PR_base p = p.PR_total ^ ((1 : ℝ) / (nStagesClamped p : ℝ)) ∧
    (0 < p.PR_total → PR_base p ^ nNat p = p.PR_total) ∧
    (0 < p.PR_total → p.inlet_pressure_pa ≠ 0 →
      (((perform_performance_calculation p).stage_details.get ⟨k, hk⟩).P_out_bar
        / ((perform_performance_calculation p).stage_details.get ⟨k, hk⟩).P_in_bar)
          ^ nNat p = p.PR_total) := by
  rw [perform_get]
  refine ⟨rfl, rfl, rfl, rfl, PR_base_pow p, ?_⟩
  intro hPR hP
  have hb : 0 < PR_base p := PR_base_pos p hPR
  have hPin : P_in_bar0 p * PR_base p ^ k ≠ 0 :=
    mul_ne_zero (div_ne_zero hP (by norm_num)) (pow_ne_zero k hb.ne')
  have hdiv : (stageAt p k).P_out_bar / (stageAt p k).P_in_bar = PR_base p := by
    show P_in_bar0 p * PR_base p ^ k * PR_base p / (P_in_bar0 p * PR_base p ^ k)
        = PR_base p
    exact mul_div_cancel_left₀ (PR_base p) hPin
  rw [hdiv]
  exact PR_base_pow p hPR

/-- Claim C3: for every stage after the first, the inlet temperature of
the stage equals exactly the actual outlet temperature of the previous
stage — the outlet state is carried forward unchanged, with no
intermediate cooling or loss between stages. -/
theorem stage_inlet_equals_previous_outlet (p : Params) (k : Nat)
    (hk : k < (perform_performance_calculation p).stage_details.length)
    (hk1 : k + 1 < (perform_performance_calculation p).stage_details.length) :
    ((perform_performance_calculation p).stage_details.get ⟨k + 1, hk1⟩).T_in_C
      = ((perform_performance_calculation p).stage_details.get ⟨k, hk⟩).T_out_C := by
  rw [perform_get, perform_get]
  show TinStage p (k + 1) - 273.15
      = T_out_actual p ((k : Int) + 1) (TinStage p k) - 273.15
  rw [TinStage_succ]

/-- Claim C4: each stage's isentropic efficiency equals
`0.65 + 0.15*(SACE/100) - 0.05*(VVCP/100) + 0.10*(SAHE/100)` clamped to
`[0.65, 0.92]`, and consequently the reported isentropic efficiency of
every stage always lies in `[0.65, 0.92]`, for arbitrary (also
out-of-`[0,100]`) percentage inputs. -/
theorem isentropic_efficiency_formula_and_bounds (p : Params) (k : Nat)
    (hk : k < (perform_performance_calculation p).stage_details.length) :
    ((perform_performance_calculation p).stage_details.get ⟨k, hk⟩).isentropic_eff
        = clamp (0.65 + 0.15 * (stage_SACE p ((k : Int) + 1) / 100)
            - 0.05 * (stage_VVCP p ((k : Int) + 1) / 100)
            + 0.10 * (stage_SAHE p ((k : Int) + 1) / 100)) 0.65 0.92 ∧
    0.65 ≤ ((perform_performance_calculation p).stage_details.get
        ⟨k, hk⟩).isentropic_eff ∧
    ((perform_performance_calculation p).stage_details.get
        ⟨k, hk⟩).isentropic_eff ≤ 0.92 := by
  rw [perform_get]
  exact ⟨rfl, le_clamp _ _ _, clamp_le_right _ _ _ (by norm_num)⟩

/-- Claim C5: the percentages a stage uses are the arithmetic mean of
the percentages of the throws it resolves to, a stage resolving to one
throw uses exactly that throw's values (the mean of a singleton), and a
stage resolving to none uses `0` for all three; moreover the assignment
dictionary resolves every stage to at most one throw, so the
multiple-throw case never arises in this implementation. -/
theorem throw_resolution_mean_policy (p : Params) (i : Int) :
    (assignedThrows p i).length ≤ 1 ∧
    stage_SACE p i = meanOrZero ((assignedThrows p i).map Throw.SACE) ∧
    stage_VVCP p i = meanOrZero ((assignedThrows p i).map Throw.VVCP) ∧
    stage_SAHE p i = meanOrZero ((assignedThrows p i).map Throw.SAHE) := by
  unfold assignedThrows stage_SACE stage_VVCP stage_SAHE
  cases resolvedThrow p i with
  | none => simp [meanOrZero]
  | some th => simp [meanOrZero]

/-- Claim C6: the stage-result sequence contains exactly `n_stages`
entries when `n_stages ≥ 1`, and exactly one entry when `n_stages ≤ 0`:
a non-positive stage count is clamped to `1` on entry rather than
rejected. -/
theorem stage_count_clamp (p : Params) :
    (0 < p.n_stages →
      ((perform_performance_calculation p).stage_details.length : Int)
        = p.n_stages) ∧
    (p.n_stages ≤ 0 →
      (perform_performance_calculation p).stage_details.length = 1) := by
  constructor
  · intro h
    rw [perform_length]
    unfold nNat nStagesClamped
    rw [if_neg (by omega)]
    exact Int.toNat_of_nonneg (by omega)
  · intro h
    rw [perform_length]
    unfold nNat nStagesClamped
    rw [if_pos h]
    rfl

/-- Claim C7: the reported total shaft power is the plain arithmetic sum
of the per-stage shaft powers, with no weighting, loss term or
adjustment at aggregation; the Ariel7-compatible mirror reports the same
total. -/
theorem total_power_is_sum (p : Params) :
    (perform_performance_calculation p).total_shaft_power_kW
        = ((perform_performance_calculation p).stage_details.map
            StageDetail.shaft_power_kW).sum ∧
    (perform_performance_calculation p).ariel_total_shaft_power_kW
        = (perform_performance_calculation p).total_shaft_power_kW :=
  ⟨perform_total p, rfl⟩

/-- Claim C9: the polytropic efficiency is reported only: it is present
in every stage record (also in the Ariel7-compatible mirror) and clamped
to `[0.60, 0.95]`, while the outlet temperatures, stage shaft powers and
the total are exactly the values determined by the isentropic efficiency
through the running-temperature recursion `TinStage`, whose definition
never consults `eta_poly`. -/
theorem polytropic_reported_only (p : Params) (k : Nat)
    (hk : k < (perform_performance_calculation p).stage_details.length) :
    0.60 ≤ ((perform_performance_calculation p).stage_details.get
        ⟨k, hk⟩).poly_eff ∧
    ((perform_performance_calculation p).stage_details.get ⟨k, hk⟩).poly_eff
        ≤ 0.95 ∧
    ((perform_performance_calculation p).stage_details.get ⟨k, hk⟩).poly_eff
        = eta_poly p ((k : Int) + 1) ∧
    ((perform_performance_calculation p).stage_details.get ⟨k, hk⟩).T_out_C
        + 273.15 = TinStage p (k + 1) ∧
    ((perform_performance_calculation p).stage_details.get ⟨k, hk⟩).shaft_power_kW
        = p.mass_flow_kg_s * cp_kJ_per_kgK
          * (TinStage p (k + 1) - TinStage p k) / 1000 ∧
    (perform_performance_calculation p).ariel_stages.map
        ArielStage.polytropic_efficiency
      = (perform_performance_calculation p).stage_details.map
          StageDetail.poly_eff ∧
    (perform_performance_calculation p).total_shaft_power_kW
        = ((perform_performance_calculation p).stage_details.map
            StageDetail.shaft_power_kW).sum := by
  rw [perform_get]
  refine ⟨?_, ?_, rfl, ?_, ?_, ?_, perform_total p⟩
  · show 0.60 ≤ eta_poly p ((k : Int) + 1)
    exact le_clamp _ _ _
  · show eta_poly p ((k : Int) + 1) ≤ 0.95
    exact clamp_le_right _ _ _ (by norm_num)
  · show T_out_actual p ((k : Int) + 1) (TinStage p k) - 273.15 + 273.15 = _
    rw [TinStage_succ]
    ring
  · show p.mass_flow_kg_s * cp_kJ_per_kgK
        * (T_out_actual p ((k : Int) + 1) (TinStage p k) - TinStage p k) / 1000 = _
    rw [TinStage_succ]
  · simp [perform_performance_calculation, List.map_map, Function.comp]

/-- Python float division as a fallible operation: defined exactly when
the denominator is nonzero (a zero denominator raises
`ZeroDivisionError`). -/
def divOpt (x y : ℝ) : Option ℝ := if y = 0 then none else some (x / y)

/-- Python float exponentiation `x ** y` with a real exponent as a
fallible operation: a positive base always yields a real; a zero base
requires a nonnegative exponent (`0.0 ** y` with `y < 0` raises
`ZeroDivisionError`); a negative base with a non-integral real exponent
leaves real arithmetic (Python produces a complex number), which this
real-valued model treats as failure. -/
def powOpt (x y : ℝ) : Option ℝ :=
  if 0 < x then some (x ^ y)
  else if x = 0 ∧ 0 ≤ y then some (x ^ y)
  else none

lemma divOpt_of_ne (x y : ℝ) (h : y ≠ 0) : divOpt x y = some (x / y) := by
  simp [divOpt, h]

lemma powOpt_of_pos (x y : ℝ) (h : 0 < x) : powOpt x y = some (x ^ y) := by
  simp [powOpt, h]

/-- The isentropic-efficiency computation of src/app.py lines 383-384
with each division made explicit as a fallible operation. -/
def eta_isentOpt (p : Params) (i : Int) : Option ℝ :=
  (divOpt (stage_SACE p i) 100).bind fun a =>
  (divOpt (stage_VVCP p i) 100).bind fun b =>
  (divOpt (stage_SAHE p i) 100).bind fun c =>
  some (clamp (0.65 + 0.15 * a - 0.05 * b + 0.10 * c) 0.65 0.92)

/-- The polytropic-efficiency computation of src/app.py lines 387-388
with each division made explicit as a fallible operation. -/
def eta_polyOpt (p : Params) (i : Int) : Option ℝ :=
  (divOpt (stage_SACE p i) 100).bind fun a =>
  (divOpt (stage_VVCP p i) 100).bind fun b =>
  (divOpt (stage_SAHE p i) 100).bind fun c =>
  some (clamp (0.75 + a * 0.08 - b * 0.02 + c * 0.03) 0.60 0.95)

lemma eta_isentOpt_eq (p : Params) (i : Int) :
    eta_isentOpt p i = some (eta_isent p i) := by
  rw [eta_isentOpt, divOpt_of_ne _ _ (by norm_num), divOpt_of_ne _ _ (by norm_num),
    divOpt_of_ne _ _ (by norm_num)]
  simp only [Option.some_bind]
  rfl

lemma eta_polyOpt_eq (p : Params) (i : Int) :
    eta_polyOpt p i = some (eta_poly p i) := by
  rw [eta_polyOpt, divOpt_of_ne _ _ (by norm_num), divOpt_of_ne _ _ (by norm_num),
    divOpt_of_ne _ _ (by norm_num)]
  simp only [Option.some_bind]
  rfl

/-- One loop iteration (src/app.py lines 365-410) with every fallible
float operation made explicit; returns the stage record and the actual
outlet temperature carried to the next stage. -/
def mkStageOpt (p : Params) (PRb PinBar : ℝ) (k : Nat) (T : ℝ) :
    Option (StageDetail × ℝ) :=
  (eta_isentOpt p ((k : Int) + 1)).bind fun ei =>
  (eta_polyOpt p ((k : Int) + 1)).bind fun ep =>
  (divOpt (gamma - 1) gamma).bind fun ex =>
  (powOpt PRb ex).bind fun prx =>
  (divOpt (T * prx - T) (max ei 1e-6)).bind fun dT =>
  (divOpt (p.mass_flow_kg_s * cp_kJ_per_kgK * ((T + dT) - T)) 1000).bind fun w =>
  some ({ stage := (k : Int) + 1
          P_in_bar := PinBar * PRb ^ k
          P_out_bar := PinBar * PRb ^ k * PRb
          PR := PRb
          T_in_C := T - 273.15
          T_out_C := (T + dT) - 273.15
          poly_eff := ep
          isentropic_eff := ei
          shaft_power_kW := w }, T + dT)

lemma mkStageOpt_eq (p : Params) (k : Nat) (T : ℝ) (hb : 0 < PR_base p) :
    mkStageOpt p (PR_base p) (P_in_bar0 p) k T
      = some (mkStage p k T, T_out_actual p ((k : Int) + 1) T) := by
  rw [mkStageOpt, eta_isentOpt_eq, eta_polyOpt_eq,
    divOpt_of_ne _ _ (by norm_num [gamma])]
  simp only [Option.some_bind]
  rw [powOpt_of_pos _ _ hb]
  simp only [Option.some_bind]
  rw [divOpt_of_ne _ _
    ((lt_of_lt_of_le (by norm_num : (0:ℝ) < 1e-6) (le_max_right _ _)).ne')]
  simp only [Option.some_bind]
  rw [divOpt_of_ne _ _ (by norm_num : (1000:ℝ) ≠ 0)]
  simp only [Option.some_bind]
  rfl

/-- The stage loop (src/app.py lines 365-414) with fallible operations. -/
def loopGoOpt (p : Params) (PRb PinBar : ℝ) :
    Nat → Nat → ℝ → ℝ → Option (List StageDetail × ℝ × ℝ)
  | 0, _, T, acc => some ([], T, acc)
  | m + 1, k, T, acc =>
    (mkStageOpt p PRb PinBar k T).bind fun sdT =>
    (loopGoOpt p PRb PinBar m (k + 1) sdT.2
        (acc + sdT.1.shaft_power_kW)).bind fun rest =>
    some (sdT.1 :: rest.1, rest.2)

lemma loopGoOpt_eq (p : Params) (hb : 0 < PR_base p) :
    ∀ (m k : Nat) (T acc : ℝ),
      loopGoOpt p (PR_base p) (P_in_bar0 p) m k T acc
        = some (loopGo p m k T acc) := by
  intro m
  induction m with
  | zero => intro k T acc; rfl
  | succ m ih =>
    intro k T acc
    rw [loopGoOpt, mkStageOpt_eq p k T hb]
    simp only [Option.some_bind]
    rw [ih]
    simp only [Option.some_bind]
    rfl

/-- Python `perform_performance_calculation` with every fallible float
operation (division, real-exponent exponentiation) made explicit;
`none` models a raised arithmetic error. -/
def performOpt (p : Params) : Option Outputs :=
  (divOpt 1 ((nStagesClamped p : Int) : ℝ)).bind fun oneOverN =>
  (powOpt p.PR_total oneOverN).bind fun PRb =>
  (divOpt p.inlet_pressure_pa 1e5).bind fun PinBar =>
  (loopGoOpt p PRb PinBar (nNat p) 0 p.inlet_temperature_K 0).bind fun res =>
  some { frame_rpm := p.rpm
         mass_flow_kg_s := p.mass_flow_kg_s
         inlet_pressure_bar := PinBar
         inlet_temperature_C := res.2.1 - 273.15
         n_stages := nStagesClamped p
         total_shaft_power_kW := res.2.2
         stage_details := res.1
         ariel_stages := res.1.map (fun s =>
           { stage_number := s.stage
             P_in_bar := s.P_in_bar
             P_out_bar := s.P_out_bar
             PR := s.PR
             T_in_C := s.T_in_C
             T_out_C := s.T_out_C
             polytropic_efficiency := s.poly_eff
             isentropic_efficiency := s.isentropic_eff
             shaft_power_kW := s.shaft_power_kW })
         ariel_total_shaft_power_kW := res.2.2 }

/-- Claim C8: for every normalised numeric input with a positive total
pressure ratio — including non-positive mass flow, pressure or
temperature of any magnitude — the performance calculation completes
without raising any error: the model in which every fallible float
operation can fail returns `some`, and its value is exactly the output
of the total function.  There is no validation-error path; nonsensical
inputs simply flow through the formulas. -/
theorem calculation_never_fails (p : Params) (h : 0 < p.PR_total) :
    performOpt p = some (perform_performance_calculation p) := by
  have hb : 0 < PR_base p := PR_base_pos p h
  have h1 := one_le_nStagesClamped p
  have hcne : ((nStagesClamped p : Int) : ℝ) ≠ 0 :=
    Int.cast_ne_zero.mpr (by omega)
  rw [performOpt, divOpt_of_ne _ _ hcne]
  simp only [Option.some_bind]
  rw [powOpt_of_pos _ _ h]
  simp only [Option.some_bind]
  rw [divOpt_of_ne _ _ (by norm_num : (1e5:ℝ) ≠ 0)]
  simp only [Option.some_bind]
  rw [show p.PR_total ^ (1 / ((nStagesClamped p : Int) : ℝ)) = PR_base p from rfl,
    show p.inlet_pressure_pa / 1e5 = P_in_bar0 p from rfl,
    loopGoOpt_eq p hb (nNat p) 0 p.inlet_temperature_K 0]
  simp only [Option.some_bind]
  rfl

/-- Claim C10: a stage whose assignment entry is absent, `None`, or maps
to a throw identifier not present in the throws list is silently treated
as having no throw assigned: all three percentages are taken as `0` and
the isentropic efficiency is exactly `0.65`, the clamp floor, instead of
a lookup error being raised. -/
theorem missing_throw_silently_floors (p : Params) (k : Nat)
    (hk : k < (perform_performance_calculation p).stage_details.length)
    (h : ∀ tid : Int, p.stage_mapping ((k : Int) + 1) = some tid →
      throwsById p.throws tid = none) :
    ((perform_performance_calculation p).stage_details.get
        ⟨k, hk⟩).isentropic_eff = 0.65 ∧
    stage_SACE p ((k : Int) + 1) = 0 ∧
    stage_VVCP p ((k : Int) + 1) = 0 ∧
    stage_SAHE p ((k : Int) + 1) = 0 := by
  have hres : resolvedThrow p ((k : Int) + 1) = none := by
    unfold resolvedThrow
    cases hm : p.stage_mapping ((k : Int) + 1) with
    | none => rfl
    | some tid => exact h tid hm
  have hS : stage_SACE p ((k : Int) + 1) = 0 := by unfold stage_SACE; rw [hres]
  have hV : stage_VVCP p ((k : Int) + 1) = 0 := by unfold stage_VVCP; rw [hres]
  have hH : stage_SAHE p ((k : Int) + 1) = 0 := by unfold stage_SAHE; rw [hres]
  rw [perform_get]
  refine ⟨?_, hS, hV, hH⟩
  show eta_isent p ((k : Int) + 1) = 0.65
  unfold eta_isent
  rw [hS, hV, hH]
  norm_num [clamp, min_def, max_def]

/-- A concrete throw descriptor, taken from the demo data of src/app.py
lines 280-284. -/
def exThrow : Throw :=
  { throw_id := 1, bore_m := 0.08, clearance_m := 0.002,
    VVCP := 90, SACE := 80, SAHE := 60 }

/-- A concrete two-stage invocation: stage 1 maps to the real throw,
stage 2 maps to the absent identifier `99`. -/
def exParams : Params :=
  { mass_flow_kg_s := 12
    inlet_pressure_pa := 6000000
    inlet_temperature_K := 298.15
    n_stages := 2
    PR_total := 2.5
    rpm := 750
    stage_mapping := fun i => if i = 1 then some 1 else
      if i = 2 then some 99 else none
    throws := [exThrow] }

/-- The same invocation with a zero stage count. -/
def exParams0 : Params := { exParams with n_stages := 0 }

lemma exParams_len :
    (perform_performance_calculation exParams).stage_details.length = 2 := by
  rw [perform_length]
  rfl

lemma exParams_h0 :
    0 < (perform_performance_calculation exParams).stage_details.length := by
  rw [exParams_len]; norm_num

lemma exParams_h1 :
    1 < (perform_performance_calculation exParams).stage_details.length := by
  rw [exParams_len]; norm_num

/-- Witness for the per-stage temperature and power formulas at a
concrete input. -/
theorem stage_temperature_power_formulas_witness :
    ((perform_performance_calculation exParams).stage_details.get
        ⟨0, exParams_h0⟩).shaft_power_kW
      = exParams.mass_flow_kg_s * 2.0
        * (((perform_performance_calculation exParams).stage_details.get
            ⟨0, exParams_h0⟩).T_out_C + 273.15 - TinStage exParams 0) / 1000 :=
  (stage_temperature_power_formulas exParams 0 exParams_h0).2.2

/-- Witness for the geometric pressure split at a concrete input: the
recomputed stage ratio raised to the stage count recovers the total. -/
theorem stage_pressures_geometric_witness :
    (((perform_performance_calculation exParams).stage_details.get
          ⟨0, exParams_h0⟩).P_out_bar
        / ((perform_performance_calculation exParams).stage_details.get
            ⟨0, exParams_h0⟩).P_in_bar) ^ nNat exParams = exParams.PR_total :=
  (stage_pressures_geometric exParams 0 exParams_h0).2.2.2.2.2
    (by norm_num [exParams]) (by norm_num [exParams])

/-- Witness for exact stage chaining at a concrete input. -/
theorem stage_inlet_equals_previous_outlet_witness :
    ((perform_performance_calculation exParams).stage_details.get
        ⟨1, exParams_h1⟩).T_in_C
      = ((perform_performance_calculation exParams).stage_details.get
          ⟨0, exParams_h0⟩).T_out_C :=
  stage_inlet_equals_previous_outlet exParams 0 exParams_h0 exParams_h1

/-- Witness for the efficiency bounds at a concrete input. -/
theorem isentropic_efficiency_formula_and_bounds_witness :
    0.65 ≤ ((perform_performance_calculation exParams).stage_details.get
        ⟨0, exParams_h0⟩).isentropic_eff ∧
    ((perform_performance_calculation exParams).stage_details.get
        ⟨0, exParams_h0⟩).isentropic_eff ≤ 0.92 :=
  (isentropic_efficiency_formula_and_bounds exParams 0 exParams_h0).2

/-- Witness for the stage-count clamp: a positive count is kept, a
non-positive one yields exactly one stage record. -/
theorem stage_count_clamp_witness :
    ((perform_performance_calculation exParams).stage_details.length : Int)
        = exParams.n_stages ∧
    (perform_performance_calculation exParams0).stage_details.length = 1 :=
  ⟨(stage_count_clamp exParams).1 (by norm_num [exParams]),
   (stage_count_clamp exParams0).2 (by norm_num [exParams0, exParams])⟩

/-- Witness that the fallible model succeeds at a concrete input. -/
theorem calculation_never_fails_witness :
    performOpt exParams = some (perform_performance_calculation exParams) :=
  calculation_never_fails exParams (by norm_num [exParams])

/-- Witness for the polytropic-efficiency lower bound at a concrete
input. -/
theorem polytropic_reported_only_witness :
    0.60 ≤ ((perform_performance_calculation exParams).stage_details.get
        ⟨0, exParams_h0⟩).poly_eff :=
  (polytropic_reported_only exParams 0 exParams_h0).1

/-- Witness for the silent treatment of an unknown throw identifier:
stage 2 of the concrete input maps to the absent id `99` and its
efficiency is floored at `0.65`. -/
theorem missing_throw_silently_floors_witness :
    ((perform_performance_calculation exParams).stage_details.get
        ⟨1, exParams_h1⟩).isentropic_eff = 0.65 :=
  (missing_throw_silently_floors exParams 1 exParams_h1 (by
    intro tid hmap
    simp only [exParams] at hmap
    norm_num at hmap
    subst hmap
    rfl)).1

end Demag

end
